import Mathlib

/-!
Shallow embedding of the `suspension-calculator` repository: the suspension
physics module (`calculator/suspension-math.js`), the unit-conversion and
validation utilities (`calculator/utils.js`), the preset catalog
(`calculator/presets.js`), and the recommendation logic of `script.js`
(which also carries a second, independent utility module).

JavaScript numbers are modelled as exact rationals (`ℚ`) where the code only
does field arithmetic and comparisons, and as reals (`ℝ`) for the physics
module, whose formulas use `Math.PI`, `Math.sqrt` and `Math.pow`.  Functions
that `throw` or return `null` are modelled as `Option`-valued: `none` is the
failure.  String formatting (`toFixed`, unit suffixes) is presentation and is
not part of the numeric core embedded here.
-/

namespace SuspensionCalc

/-- JavaScript `Math.round`: round half toward positive infinity,
`Math.round x = ⌊x + 1/2⌋`. -/
def jsRound (x : ℚ) : ℤ := ⌊x + 1/2⌋

/-! ## `calculator/suspension-math.js` — mechanical-physics strategy -/

namespace SuspensionMath

/-- Function `calculateSpringRate` of `suspension-math.js`:
`k = (2π·f)²·m`; throws unless frequency and mass are positive. -/
noncomputable def calculateSpringRate (frequency mass : ℝ) : Option ℝ :=
  if frequency ≤ 0 ∨ mass ≤ 0 then none
  else some ((2 * Real.pi * frequency) ^ 2 * mass)

/-- Function `calculateNaturalFrequency` of `suspension-math.js`:
`f = √(k/m)/(2π)`; throws unless spring rate and mass are positive. -/
noncomputable def calculateNaturalFrequency (springRate mass : ℝ) : Option ℝ :=
  if springRate ≤ 0 ∨ mass ≤ 0 then none
  else some (Real.sqrt (springRate / mass) / (2 * Real.pi))

/-- Function `calculateDampingCoefficient` of `suspension-math.js`:
`c = ζ·2√(k·m)`; throws if the ratio is negative or k or m non-positive. -/
noncomputable def calculateDampingCoefficient (dampingRatio springRate mass : ℝ) :
    Option ℝ :=
  if dampingRatio < 0 ∨ springRate ≤ 0 ∨ mass ≤ 0 then none
  else some (dampingRatio * (2 * Real.sqrt (springRate * mass)))

/-- Function `calculateDampingRatio` of `suspension-math.js`:
`ζ = c/(2√(k·m))`; throws if the coefficient is negative or k or m
non-positive. -/
noncomputable def calculateDampingRatio (dampingCoefficient springRate mass : ℝ) :
    Option ℝ :=
  if dampingCoefficient < 0 ∨ springRate ≤ 0 ∨ mass ≤ 0 then none
  else some (dampingCoefficient / (2 * Real.sqrt (springRate * mass)))

/-- Function `calculateCriticalDamping` of `suspension-math.js`:
`c_critical = 2√(k·m)`; throws unless spring rate and mass are positive. -/
noncomputable def calculateCriticalDamping (springRate mass : ℝ) : Option ℝ :=
  if springRate ≤ 0 ∨ mass ≤ 0 then none
  else some (2 * Real.sqrt (springRate * mass))

/-- Function `calculatePeriod` of `suspension-math.js`: `T = 1/f`; throws
unless the frequency is positive. -/
noncomputable def calculatePeriod (frequency : ℝ) : Option ℝ :=
  if frequency ≤ 0 then none
  else some (1 / frequency)

/-- Function `classifyDamping` of `suspension-math.js`: throws for a negative
ratio; `ratio < 1` underdamped, `ratio === 1` (exact equality) critically
damped, otherwise overdamped. -/
noncomputable def classifyDamping (dampingRatio : ℝ) : Option String :=
  if dampingRatio < 0 then none
  else if dampingRatio < 1 then some "underdamped"
  else if dampingRatio = 1 then some "critically damped"
  else some "overdamped"

end SuspensionMath

/-! ## `calculator/utils.js` — guarded unit conversions -/

namespace Utils

/-- A JavaScript numeric value as seen by `isValidNumber`: a finite number,
`NaN`, or one of the two infinities. -/
inductive JSNum where
  | num (q : ℚ)
  | nan
  | posInf
  | negInf
deriving DecidableEq

/-- Function `isValidNumber` of `calculator/utils.js`:
`typeof value === 'number' && !isNaN(value) && isFinite(value)`. -/
def isValidNumber : JSNum → Bool
  | .num _ => true
  | _ => false

/-- Finite value carried by a `JSNum`; only meaningful when `isValidNumber`
holds (every use below is behind that guard, as in the source). -/
def JSNum.val : JSNum → ℚ
  | .num q => q
  | _ => 0

/-- Function `lbsToKg` of `calculator/utils.js`: `null` unless the input is a
valid number, else `lbs * 0.453592`. -/
def lbsToKg (lbs : JSNum) : Option ℚ :=
  if isValidNumber lbs then some (lbs.val * 0.453592) else none

/-- Function `kgToLbs` of `calculator/utils.js`: `null` unless the input is a
valid number, else `kg / 0.453592`. -/
def kgToLbs (kg : JSNum) : Option ℚ :=
  if isValidNumber kg then some (kg.val / 0.453592) else none

/-- Function `mmToInches` of `calculator/utils.js`: `null` unless the input is
a valid number, else `mm / 25.4`. -/
def mmToInches (mm : JSNum) : Option ℚ :=
  if isValidNumber mm then some (mm.val / 25.4) else none

/-- Function `inchesToMm` of `calculator/utils.js`: `null` unless the input is
a valid number, else `inches * 25.4`. -/
def inchesToMm (inches : JSNum) : Option ℚ :=
  if isValidNumber inches then some (inches.val * 25.4) else none

end Utils

/-! ## Second utility module concatenated into `script.js` (unguarded
conversions using the factor 2.20462) -/

namespace ScriptUtils

/-- Function `lbsToKg` of the utility module in `script.js`:
`lbs / 2.20462`. -/
def lbsToKg (lbs : ℚ) : ℚ := lbs / 2.20462

/-- Function `kgToLbs` of the utility module in `script.js`:
`kg * 2.20462`. -/
def kgToLbs (kg : ℚ) : ℚ := kg * 2.20462

/-- Function `mmToInches` of the utility module in `script.js`:
`mm / 25.4`. -/
def mmToInches (mm : ℚ) : ℚ := mm / 25.4

/-- Function `inchesToMm` of the utility module in `script.js`:
`inches * 25.4`. -/
def inchesToMm (inches : ℚ) : ℚ := inches * 25.4

end ScriptUtils

/-! ## `script.js` — recommendation engine (empirical-weight strategy) -/

namespace App

/-- Function `getStyleMultiplier` of `script.js`: the table
`{xc: 1.2, trail: 1.0, enduro: 0.9, dh: 0.8}` read as
`multipliers[style] || 1.0` (an unknown style yields the fallback 1.0). -/
def getStyleMultiplier (style : String) : ℚ :=
  if style = "xc" then 1.2
  else if style = "trail" then 1.0
  else if style = "enduro" then 0.9
  else if style = "dh" then 0.8
  else 1.0

/-- Modelled from the spec: `springRateEmpirical` (§4.4).  `script.js` calls
`calculateSpringRate(weightInLbs, travelMm, component)`, but no empirical
three-argument implementation is among the repository files; the spec defines
it as: weight to Newtons (×4.448), travel to meters, `(N / travelM) / 1000`,
scaled by a component factor (fork 0.45, shock 0.55). -/
def calculateSpringRate (weightLbs travelMm : ℚ) (component : String) : ℚ :=
  let newtons := weightLbs * 4.448
  let travelM := travelMm / 1000
  newtons / travelM / 1000 * (if component = "fork" then 0.45 else 0.55)

/-- Modelled from the spec: `defaultSagPercent` (§4.4).  `script.js` calls
`calculateSag(travelMm, component)`, whose implementation is not among the
repository files; the spec fixes sag at 25 for the fork and 30 for the shock,
independent of the other inputs. -/
def calculateSag (travelMm : ℚ) (component : String) : ℚ :=
  if component = "fork" then 25 else 30

/-- Numeric core of one component recommendation (`script.js` formats these
as display strings; the numbers are embedded, the formatting is not). -/
structure ComponentSetting where
  springRate : ℚ
  compression : ℤ
  rebound : ℤ
  sag : ℚ
deriving DecidableEq, Repr

/-- Method `calculateForkSetup` of `script.js` (the fork travel is passed
explicitly instead of being read from `this.data.forkTravel`). -/
def calculateForkSetup (weightInLbs multiplier forkTravel : ℚ) : ComponentSetting :=
  let springRate := calculateSpringRate weightInLbs forkTravel "fork" * multiplier
  let compression := jsRound (weightInLbs / 10 * multiplier)
  let rebound := jsRound ((compression : ℚ) * 1.2)
  let sag := calculateSag forkTravel "fork"
  { springRate := springRate, compression := compression,
    rebound := rebound, sag := sag }

/-- Method `calculateShockSetup` of `script.js` (the shock travel is passed
explicitly instead of being read from `this.data.suspensionTravel`). -/
def calculateShockSetup (weightInLbs multiplier suspensionTravel : ℚ) :
    ComponentSetting :=
  let springRate := calculateSpringRate weightInLbs suspensionTravel "shock" * multiplier
  let compression := jsRound (weightInLbs / 12 * multiplier)
  let rebound := jsRound ((compression : ℚ) * 1.15)
  let sag := calculateSag suspensionTravel "shock"
  { springRate := springRate, compression := compression,
    rebound := rebound, sag := sag }

/-- The form-bound fields of `app.data` that `calculateSetup` reads. -/
structure AppData where
  riderWeight : ℚ
  weightUnit : String
  suspensionTravel : ℚ
  forkTravel : ℚ
  ridingStyle : String
deriving DecidableEq

/-- The fork/shock pair returned by `calculateSetup`. -/
structure Setup where
  fork : ComponentSetting
  shock : ComponentSetting
deriving DecidableEq

/-- Method `calculateSetup` of `script.js`: normalize the weight to pounds
(`kg` input is multiplied by 2.20462), resolve the style multiplier, and
compute both component setups. -/
def calculateSetup (d : AppData) : Setup :=
  let weightInLbs := if d.weightUnit = "kg" then d.riderWeight * 2.20462 else d.riderWeight
  let styleMultiplier := getStyleMultiplier d.ridingStyle
  { fork := calculateForkSetup weightInLbs styleMultiplier d.forkTravel,
    shock := calculateShockSetup weightInLbs styleMultiplier d.suspensionTravel }

end App

/-! ## `calculator/presets.js` — static bike and riding-profile catalog -/

namespace Presets

/-- One suspension unit of a bike preset (`suspension.front` / `.rear`). -/
structure UnitSpec where
  travel : ℚ
  type : String
  minTravel : ℚ
  maxTravel : ℚ
deriving DecidableEq, Repr

/-- One entry of `BIKE_PRESETS` in `calculator/presets.js`. -/
structure BikePreset where
  name : String
  type : String
  category : String
  front : UnitSpec
  rear : Option UnitSpec
  weight : ℚ
  purpose : String
  description : String
deriving DecidableEq, Repr

/-- The `BIKE_PRESETS` table of `calculator/presets.js` as an association
list keyed by the object keys. -/
def BIKE_PRESETS : List (String × BikePreset) :=
  [("hardtail",
    { name := "Hardtail Mountain Bike", type := "hardtail", category := "mtb",
      front := { travel := 100, type := "air", minTravel := 80, maxTravel := 150 },
      rear := none, weight := 12.5,
      purpose := "Cross-country and trail riding",
      description := "Lightweight bike optimized for efficiency and climbing" }),
   ("trailMTB",
    { name := "Trail Mountain Bike", type := "full-suspension", category := "mtb",
      front := { travel := 140, type := "air", minTravel := 120, maxTravel := 160 },
      rear := some { travel := 130, type := "air", minTravel := 110, maxTravel := 150 },
      weight := 13.5,
      purpose := "All-mountain trail riding",
      description := "Balanced suspension for technical descents and climbing" }),
   ("enduroMTB",
    { name := "Enduro Mountain Bike", type := "full-suspension", category := "mtb",
      front := { travel := 160, type := "air", minTravel := 150, maxTravel := 180 },
      rear := some { travel := 150, type := "air", minTravel := 140, maxTravel := 170 },
      weight := 14.0,
      purpose := "Aggressive downhill riding with climbing capability",
      description := "Long travel suspension optimized for descents" }),
   ("downhillMTB",
    { name := "Downhill Mountain Bike", type := "full-suspension", category := "mtb",
      front := { travel := 200, type := "coil", minTravel := 180, maxTravel := 220 },
      rear := some { travel := 200, type := "coil", minTravel := 180, maxTravel := 220 },
      weight := 15.5,
      purpose := "Downhill racing and aggressive terrain",
      description := "Maximum suspension travel for extreme conditions" }),
   ("gravelBike",
    { name := "Gravel Bike", type := "rigid-or-flex", category := "gravel",
      front := { travel := 40, type := "elastomer", minTravel := 20, maxTravel := 60 },
      rear := none, weight := 11.0,
      purpose := "Off-road and adventure riding",
      description := "Lightweight bike for mixed terrain" }),
   ("parkBike",
    { name := "Park/Slopestyle Bike", type := "full-suspension", category := "mtb",
      front := { travel := 180, type := "air", minTravel := 160, maxTravel := 200 },
      rear := some { travel := 170, type := "air", minTravel := 150, maxTravel := 190 },
      weight := 14.5,
      purpose := "Park riding and slopestyle courses",
      description := "Optimized for jumps and technical features" }),
   ("eMTB",
    { name := "E-Mountain Bike", type := "full-suspension", category := "emtb",
      front := { travel := 150, type := "air", minTravel := 130, maxTravel := 170 },
      rear := some { travel := 140, type := "air", minTravel := 120, maxTravel := 160 },
      weight := 23.0,
      purpose := "Trail riding with motor assistance",
      description := "Suspension tuned for heavier overall weight" })]

/-- The `characteristics` block of a riding profile. -/
structure Characteristics where
  weight : String
  speed : String
  technicality : String
  terrain : String
  focus : String
deriving DecidableEq, Repr

/-- The `suspensionSettings` block of a riding profile. -/
structure ProfileSettings where
  compressionLowSpeed : ℚ
  compressionHighSpeed : ℚ
  reboundFront : ℚ
  reboundRear : ℚ
  sagFront : ℚ
  sagRear : ℚ
  barAdjustment : ℚ
deriving DecidableEq, Repr

/-- One entry of `RIDING_PROFILES` in `calculator/presets.js`. -/
structure RidingProfile where
  name : String
  riderType : String
  characteristics : Characteristics
  suspensionSettings : ProfileSettings
  recommendations : List String
deriving DecidableEq, Repr

/-- The `RIDING_PROFILES` table of `calculator/presets.js` as an association
list keyed by the object keys. -/
def RIDING_PROFILES : List (String × RidingProfile) :=
  [("xc",
    { name := "Cross-Country (XC)", riderType := "efficiency-focused",
      characteristics :=
        { weight := "light", speed := "high", technicality := "low-to-moderate",
          terrain := "smooth to rolling", focus := "climbing and endurance" },
      suspensionSettings :=
        { compressionLowSpeed := 30, compressionHighSpeed := 40,
          reboundFront := 35, reboundRear := 35,
          sagFront := 20, sagRear := 22, barAdjustment := -10 },
      recommendations :=
        ["Focus on minimizing suspension movement on smooth trails",
         "Use lower compression for better traction while climbing",
         "Keep rebound fast to maintain pedaling efficiency",
         "Monitor sag on technical sections"] }),
   ("trail",
    { name := "Trail Riding", riderType := "balanced",
      characteristics :=
        { weight := "medium", speed := "medium", technicality := "moderate",
          terrain := "mixed technical terrain", focus := "handling and fun factor" },
      suspensionSettings :=
        { compressionLowSpeed := 45, compressionHighSpeed := 50,
          reboundFront := 50, reboundRear := 50,
          sagFront := 25, sagRear := 28, barAdjustment := 0 },
      recommendations :=
        ["Balance compression and rebound for varied terrain",
         "Adjust sag based on terrain changes during ride",
         "Use high-speed compression for larger impacts",
         "Fine-tune low-speed compression for trail smoothness"] }),
   ("enduro",
    { name := "Enduro Racing", riderType := "aggressive",
      characteristics :=
        { weight := "medium", speed := "high", technicality := "high",
          terrain := "steep and technical", focus := "control and speed" },
      suspensionSettings :=
        { compressionLowSpeed := 55, compressionHighSpeed := 55,
          reboundFront := 60, reboundRear := 60,
          sagFront := 28, sagRear := 30, barAdjustment := -5 },
      recommendations :=
        ["Prioritize support and stability over compliance",
         "Use higher compression to prevent bottoming on big hits",
         "Keep rebound fast enough for consecutive impacts",
         "Increase sag slightly for downhill control"] }),
   ("downhill",
    { name := "Downhill Racing", riderType := "aggressive-technical",
      characteristics :=
        { weight := "heavy", speed := "maximum", technicality := "extreme",
          terrain := "steep, rocky, technical", focus := "control and speed at limit" },
      suspensionSettings :=
        { compressionLowSpeed := 65, compressionHighSpeed := 60,
          reboundFront := 70, reboundRear := 70,
          sagFront := 30, sagRear := 33, barAdjustment := -15 },
      recommendations :=
        ["Use firm compression to maintain control at speed",
         "Balance rebound to handle back-to-back impacts",
         "Run higher sag for support through big compressions",
         "Consider coil suspension for consistent feel at speed"] }),
   ("casual",
    { name := "Casual Riding", riderType := "comfort-focused",
      characteristics :=
        { weight := "variable", speed := "slow-to-medium", technicality := "low",
          terrain := "smooth, maintained trails", focus := "comfort and enjoyment" },
      suspensionSettings :=
        { compressionLowSpeed := 35, compressionHighSpeed := 45,
          reboundFront := 40, reboundRear := 40,
          sagFront := 25, sagRear := 27, barAdjustment := 5 },
      recommendations :=
        ["Prioritize comfort over performance",
         "Use lower compression for a plush feel",
         "Allow more suspension movement",
         "Focus on smooth, flowing lines"] }),
   ("park",
    { name := "Park/Jumps", riderType := "tricks-focused",
      characteristics :=
        { weight := "light-to-medium", speed := "medium",
          technicality := "moderate-to-high",
          terrain := "built features and jumps", focus := "pop and responsiveness" },
      suspensionSettings :=
        { compressionLowSpeed := 40, compressionHighSpeed := 50,
          reboundFront := 55, reboundRear := 55,
          sagFront := 23, sagRear := 25, barAdjustment := 0 },
      recommendations :=
        ["Set up for quick rebound to reset between features",
         "Use lower sag for more pop off jumps",
         "Balance compression to absorb landings",
         "Test different settings for tricks you practice"] })]

/-- Function `getBikePreset` of `calculator/presets.js`:
`BIKE_PRESETS[bikeId] || null`. -/
def getBikePreset (bikeId : String) : Option BikePreset :=
  BIKE_PRESETS.lookup bikeId

/-- Function `getRidingProfile` of `calculator/presets.js`:
`RIDING_PROFILES[profileId] || null`. -/
def getRidingProfile (profileId : String) : Option RidingProfile :=
  RIDING_PROFILES.lookup profileId

end Presets

/-! ## Helper lemmas -/

/-- Bounds for the JavaScript rounding: a value in `[0, n]` rounds into
`[0, n]`. -/
theorem jsRound_bounds (x : ℚ) (n : ℤ) (h0 : 0 ≤ x) (hn : x ≤ (n : ℚ)) :
    0 ≤ jsRound x ∧ jsRound x ≤ n := by
  constructor
  · exact Int.le_floor.mpr (by push_cast; linarith)
  · have h : jsRound x < n + 1 := by
      apply Int.floor_lt.mpr
      push_cast
      linarith
    omega

/-- Evaluation of the JavaScript rounding at a concrete rational. -/
theorem jsRound_eq (x : ℚ) (n : ℤ) (h1 : (n : ℚ) ≤ x + 1/2) (h2 : x + 1/2 < n + 1) :
    jsRound x = n :=
  Int.floor_eq_iff.mpr ⟨h1, h2⟩

/-- The style multiplier is one of the four table values or the fallback, so it
always lies in `(0, 6/5]`. -/
theorem getStyleMultiplier_pos_le (style : String) :
    0 < App.getStyleMultiplier style ∧ App.getStyleMultiplier style ≤ 6/5 := by
  unfold App.getStyleMultiplier
  split_ifs <;> norm_num

/-- The trail style multiplier is 1. -/
theorem getStyleMultiplier_trail : App.getStyleMultiplier "trail" = 1 := by
  simp [App.getStyleMultiplier]
  norm_num

/-- Association-list lookup misses every key the probe differs from. -/
theorem lookup_eq_none_of_forall {α : Type} (l : List (String × α)) (k : String)
    (h : ∀ p ∈ l, k ≠ p.1) : l.lookup k = none := by
  induction l with
  | nil => rfl
  | cons a tl ih =>
    obtain ⟨k₀, v⟩ := a
    have hk : (k == k₀) = false :=
      beq_eq_false_iff_ne.mpr (h (k₀, v) (List.mem_cons_self _ _))
    simp only [List.lookup, hk]
    exact ih fun p hp => h p (List.mem_cons_of_mem _ hp)

/-- Scaling both sides of a relative-error bound by a common nonnegative
factor preserves it. -/
theorem rel_close_scale (x a b tol : ℚ) (hx : 0 ≤ x) (h : |a - b| ≤ tol * b) :
    |x * a - x * b| ≤ tol * (x * b) := by
  have hxab : x * a - x * b = x * (a - b) := by ring
  rw [hxab, abs_mul, abs_of_nonneg hx]
  calc x * |a - b| ≤ x * (tol * b) := mul_le_mul_of_nonneg_left h hx
    _ = tol * (x * b) := by ring

/-- Click bounds for the fork branch: a weight in `[0, 1000]` and a multiplier
in `(0, 6/5]` give compression in `[0, 120]` and rebound in `[0, 144]`. -/
theorem forkSetup_clicks_bounded (w m t : ℚ) (hw0 : 0 ≤ w) (hw1 : w ≤ 1000)
    (hm0 : 0 < m) (hm1 : m ≤ 6/5) :
    (0 ≤ (App.calculateForkSetup w m t).compression ∧
      (App.calculateForkSetup w m t).compression ≤ 120) ∧
    (0 ≤ (App.calculateForkSetup w m t).rebound ∧
      (App.calculateForkSetup w m t).rebound ≤ 144) := by
  have hcomp : (App.calculateForkSetup w m t).compression = jsRound (w / 10 * m) := rfl
  have hreb : (App.calculateForkSetup w m t).rebound
      = jsRound ((jsRound (w / 10 * m) : ℚ) * 1.2) := rfl
  have h1 : 0 ≤ w / 10 * m := mul_nonneg (by positivity) hm0.le
  have h2 : w / 10 * m ≤ ((120 : ℤ) : ℚ) := by
    have := mul_le_mul (show w / 10 ≤ 100 by linarith) hm1 hm0.le
      (by norm_num : (0 : ℚ) ≤ 100)
    push_cast
    linarith
  obtain ⟨hc0, hc1⟩ := jsRound_bounds _ 120 h1 h2
  have h3 : 0 ≤ (jsRound (w / 10 * m) : ℚ) * 1.2 := by
    have : (0 : ℚ) ≤ (jsRound (w / 10 * m) : ℚ) := by exact_mod_cast hc0
    nlinarith
  have h4 : (jsRound (w / 10 * m) : ℚ) * 1.2 ≤ ((144 : ℤ) : ℚ) := by
    have : (jsRound (w / 10 * m) : ℚ) ≤ 120 := by exact_mod_cast hc1
    push_cast
    nlinarith
  obtain ⟨hr0, hr1⟩ := jsRound_bounds _ 144 h3 h4
  rw [hcomp, hreb]
  exact ⟨⟨hc0, hc1⟩, ⟨hr0, hr1⟩⟩

/-- Click bounds for the shock branch: a weight in `[0, 1000]` and a multiplier
in `(0, 6/5]` give compression in `[0, 100]` and rebound in `[0, 115]`. -/
theorem shockSetup_clicks_bounded (w m t : ℚ) (hw0 : 0 ≤ w) (hw1 : w ≤ 1000)
    (hm0 : 0 < m) (hm1 : m ≤ 6/5) :
    (0 ≤ (App.calculateShockSetup w m t).compression ∧
      (App.calculateShockSetup w m t).compression ≤ 100) ∧
    (0 ≤ (App.calculateShockSetup w m t).rebound ∧
      (App.calculateShockSetup w m t).rebound ≤ 115) := by
  have hcomp : (App.calculateShockSetup w m t).compression = jsRound (w / 12 * m) := rfl
  have hreb : (App.calculateShockSetup w m t).rebound
      = jsRound ((jsRound (w / 12 * m) : ℚ) * 1.15) := rfl
  have h1 : 0 ≤ w / 12 * m := mul_nonneg (by positivity) hm0.le
  have h2 : w / 12 * m ≤ ((100 : ℤ) : ℚ) := by
    have := mul_le_mul (show w / 12 ≤ 250/3 by linarith) hm1 hm0.le
      (by norm_num : (0 : ℚ) ≤ 250/3)
    push_cast
    linarith
  obtain ⟨hc0, hc1⟩ := jsRound_bounds _ 100 h1 h2
  have h3 : 0 ≤ (jsRound (w / 12 * m) : ℚ) * 1.15 := by
    have : (0 : ℚ) ≤ (jsRound (w / 12 * m) : ℚ) := by exact_mod_cast hc0
    nlinarith
  have h4 : (jsRound (w / 12 * m) : ℚ) * 1.15 ≤ ((115 : ℤ) : ℚ) := by
    have : (jsRound (w / 12 * m) : ℚ) ≤ 100 := by exact_mod_cast hc1
    push_cast
    nlinarith
  obtain ⟨hr0, hr1⟩ := jsRound_bounds _ 115 h3 h4
  rw [hcomp, hreb]
  exact ⟨⟨hc0, hc1⟩, ⟨hr0, hr1⟩⟩

/-! ## Claim theorems -/

/-- C1: for rider weight 180 lbs, fork travel 140 mm, style `trail`, the fork
recommendation has spring rate `(180·4.448/0.140)/1000 · 0.45 · 1.0`
(≈ 2.574 Nm/mm, within 0.001), compression `round(180/10·1.0) = 18` clicks,
rebound `round(18·1.2) = 22` clicks, and sag 25 percent.  The empirical
spring-rate and sag functions are modelled from the spec (their
implementations are not among the repository files). -/
theorem scenarioA_fork_setup :
    (App.calculateForkSetup 180 (App.getStyleMultiplier "trail") 140).springRate
        = 180 * 4.448 / 0.140 / 1000 * 0.45 * 1.0 ∧
    |(App.calculateForkSetup 180 (App.getStyleMultiplier "trail") 140).springRate
        - 2.574| < 0.001 ∧
    (App.calculateForkSetup 180 (App.getStyleMultiplier "trail") 140).compression = 18 ∧
    (App.calculateForkSetup 180 (App.getStyleMultiplier "trail") 140).rebound = 22 ∧
    (App.calculateForkSetup 180 (App.getStyleMultiplier "trail") 140).sag = 25 := by
  have hsr : (App.calculateForkSetup 180 (App.getStyleMultiplier "trail") 140).springRate
      = App.calculateSpringRate 180 140 "fork" * App.getStyleMultiplier "trail" := rfl
  have hc : (App.calculateForkSetup 180 (App.getStyleMultiplier "trail") 140).compression
      = jsRound (180 / 10 * App.getStyleMultiplier "trail") := rfl
  have hr : (App.calculateForkSetup 180 (App.getStyleMultiplier "trail") 140).rebound
      = jsRound ((jsRound (180 / 10 * App.getStyleMultiplier "trail") : ℚ) * 1.2) := rfl
  have hg : (App.calculateForkSetup 180 (App.getStyleMultiplier "trail") 140).sag
      = App.calculateSag 140 "fork" := rfl
  have hc18 : jsRound (180 / 10 * App.getStyleMultiplier "trail") = 18 := by
    rw [getStyleMultiplier_trail]
    exact jsRound_eq _ 18 (by norm_num) (by norm_num)
  refine ⟨?_, ?_, ?_, ?_, ?_⟩
  · rw [hsr, getStyleMultiplier_trail, mul_one]
    simp only [App.calculateSpringRate]
    norm_num
  · rw [hsr, getStyleMultiplier_trail, mul_one]
    simp only [App.calculateSpringRate]
    rw [abs_lt]
    norm_num
  · rw [hc, hc18]
  · rw [hr, hc18]
    exact jsRound_eq _ 22 (by norm_num) (by norm_num)
  · rw [hg]
    simp [App.calculateSag]

/-- C2 counterexample: at rider weight 1000 lbs — inside the claimed domain
`[0, 1000]` — with fork travel 140 mm and style `trail`, the fork compression
click count is 100, not in `[0, 40]`: the code never clamps clicks. -/
theorem clicks_exceed_forty :
    (App.calculateForkSetup 1000 (App.getStyleMultiplier "trail") 140).compression
        = 100 ∧
    ¬ (App.calculateForkSetup 1000 (App.getStyleMultiplier "trail") 140).compression
        ≤ 40 := by
  have hc : (App.calculateForkSetup 1000 (App.getStyleMultiplier "trail") 140).compression
      = jsRound (1000 / 10 * App.getStyleMultiplier "trail") := rfl
  have h100 : jsRound (1000 / 10 * App.getStyleMultiplier "trail") = 100 := by
    rw [getStyleMultiplier_trail]
    exact jsRound_eq _ 100 (by norm_num) (by norm_num)
  rw [hc, h100]
  exact ⟨rfl, by omega⟩

/-- C2 (amended): for every weight in `[0, 1000]` lbs, travels in `[0, 250]` mm
and every riding style, all four click counts are integers in `[0, 144]`
(the code rounds but never clamps; 144 is the attained worst case, at the fork
rebound). -/
theorem clicks_bounded (w tf ts : ℚ) (style : String)
    (hw0 : 0 ≤ w) (hw1 : w ≤ 1000) (htf0 : 0 ≤ tf) (htf1 : tf ≤ 250)
    (hts0 : 0 ≤ ts) (hts1 : ts ≤ 250) :
    (0 ≤ (App.calculateSetup ⟨w, "lbs", ts, tf, style⟩).fork.compression ∧
      (App.calculateSetup ⟨w, "lbs", ts, tf, style⟩).fork.compression ≤ 144) ∧
    (0 ≤ (App.calculateSetup ⟨w, "lbs", ts, tf, style⟩).fork.rebound ∧
      (App.calculateSetup ⟨w, "lbs", ts, tf, style⟩).fork.rebound ≤ 144) ∧
    (0 ≤ (App.calculateSetup ⟨w, "lbs", ts, tf, style⟩).shock.compression ∧
      (App.calculateSetup ⟨w, "lbs", ts, tf, style⟩).shock.compression ≤ 144) ∧
    (0 ≤ (App.calculateSetup ⟨w, "lbs", ts, tf, style⟩).shock.rebound ∧
      (App.calculateSetup ⟨w, "lbs", ts, tf, style⟩).shock.rebound ≤ 144) := by
  have hm := getStyleMultiplier_pos_le style
  have hfork : (App.calculateSetup ⟨w, "lbs", ts, tf, style⟩).fork
      = App.calculateForkSetup w (App.getStyleMultiplier style) tf := by
    simp [App.calculateSetup]
  have hshock : (App.calculateSetup ⟨w, "lbs", ts, tf, style⟩).shock
      = App.calculateShockSetup w (App.getStyleMultiplier style) ts := by
    simp [App.calculateSetup]
  obtain ⟨⟨hfc0, hfc1⟩, hfr0, hfr1⟩ :=
    forkSetup_clicks_bounded w (App.getStyleMultiplier style) tf hw0 hw1 hm.1 hm.2
  obtain ⟨⟨hsc0, hsc1⟩, hsr0, hsr1⟩ :=
    shockSetup_clicks_bounded w (App.getStyleMultiplier style) ts hw0 hw1 hm.1 hm.2
  rw [hfork, hshock]
  exact ⟨⟨hfc0, by omega⟩, ⟨hfr0, hfr1⟩, ⟨hsc0, by omega⟩, ⟨hsr0, by omega⟩⟩

/-- Closed instance of the amended C2 at weight 180, travels 140/130, style
`trail`. -/
theorem clicks_bounded_witness :
    (0 ≤ (App.calculateSetup ⟨180, "lbs", 130, 140, "trail"⟩).fork.compression ∧
      (App.calculateSetup ⟨180, "lbs", 130, 140, "trail"⟩).fork.compression ≤ 144) ∧
    (0 ≤ (App.calculateSetup ⟨180, "lbs", 130, 140, "trail"⟩).fork.rebound ∧
      (App.calculateSetup ⟨180, "lbs", 130, 140, "trail"⟩).fork.rebound ≤ 144) ∧
    (0 ≤ (App.calculateSetup ⟨180, "lbs", 130, 140, "trail"⟩).shock.compression ∧
      (App.calculateSetup ⟨180, "lbs", 130, 140, "trail"⟩).shock.compression ≤ 144) ∧
    (0 ≤ (App.calculateSetup ⟨180, "lbs", 130, 140, "trail"⟩).shock.rebound ∧
      (App.calculateSetup ⟨180, "lbs", 130, 140, "trail"⟩).shock.rebound ≤ 144) :=
  clicks_bounded 180 140 130 "trail" (by norm_num) (by norm_num) (by norm_num)
    (by norm_num) (by norm_num) (by norm_num)

/-- C8: a style id outside `{xc, trail, enduro, dh}` falls back to the trail
multiplier 1.0, so the whole computed setup equals the one computed for
`trail`. -/
theorem unknown_style_defaults_to_trail (style : String) (w : ℚ) (u : String)
    (ts tf : ℚ) (h1 : style ≠ "xc") (h2 : style ≠ "trail") (h3 : style ≠ "enduro")
    (h4 : style ≠ "dh") :
    App.getStyleMultiplier style = 1 ∧
    App.getStyleMultiplier style = App.getStyleMultiplier "trail" ∧
    App.calculateSetup ⟨w, u, ts, tf, style⟩
      = App.calculateSetup ⟨w, u, ts, tf, "trail"⟩ := by
  have hs : App.getStyleMultiplier style = 1 := by
    unfold App.getStyleMultiplier
    rw [if_neg h1, if_neg h2, if_neg h3, if_neg h4]
    norm_num
  refine ⟨hs, hs.trans getStyleMultiplier_trail.symm, ?_⟩
  simp [App.calculateSetup, hs, getStyleMultiplier_trail]

/-- Closed instance of C8 at the unknown style id `freeride`. -/
theorem unknown_style_defaults_to_trail_witness :
    App.getStyleMultiplier "freeride" = 1 ∧
    App.getStyleMultiplier "freeride" = App.getStyleMultiplier "trail" ∧
    App.calculateSetup ⟨180, "lbs", 130, 140, "freeride"⟩
      = App.calculateSetup ⟨180, "lbs", 130, 140, "trail"⟩ :=
  unknown_style_defaults_to_trail "freeride" 180 "lbs" 130 140 (by decide)
    (by decide) (by decide) (by decide)

/-- C9: an id absent from the bike-preset table makes `getBikePreset` return
`none`, and an id absent from the riding-profile table makes
`getRidingProfile` return `none`; neither lookup can fail. -/
theorem absent_id_lookup_none (bikeId profileId : String)
    (hb : ∀ p ∈ Presets.BIKE_PRESETS, bikeId ≠ p.1)
    (hp : ∀ p ∈ Presets.RIDING_PROFILES, profileId ≠ p.1) :
    Presets.getBikePreset bikeId = none ∧
    Presets.getRidingProfile profileId = none :=
  ⟨lookup_eq_none_of_forall _ _ hb, lookup_eq_none_of_forall _ _ hp⟩

/-- Closed instance of C9 at the absent id `nope`. -/
theorem absent_id_lookup_none_witness :
    Presets.getBikePreset "nope" = none ∧
    Presets.getRidingProfile "nope" = none :=
  absent_id_lookup_none "nope" "nope" (by decide) (by decide)

/-- C3 counterexample: the ratio `1 + 10⁻¹⁰` is within the claimed absolute
tolerance `10⁻⁹` of 1, yet `classifyDamping` classifies it overdamped: the
code compares with exact equality (`=== 1`), not with a tolerance. -/
theorem classifyDamping_no_tolerance :
    SuspensionMath.classifyDamping (1 + 1/10000000000) = some "overdamped" ∧
    |(1 + 1/10000000000 : ℝ) - 1| ≤ 1/1000000000 := by
  constructor
  · unfold SuspensionMath.classifyDamping
    rw [if_neg (by norm_num), if_neg (by norm_num), if_neg (by norm_num)]
  · rw [add_sub_cancel_left, abs_of_nonneg (by norm_num)]
    norm_num

/-- C3 (amended): `classifyDamping` fails for a negative ratio, returns
`underdamped` for a nonnegative ratio below 1, `critically damped` exactly
when the ratio equals 1 (exact equality, no tolerance), and `overdamped`
above 1; in particular at 1, 0.999 and 1.001 as the spec's boundary cases
state. -/
theorem classifyDamping_exact_boundary : ∀ r : ℝ,
    (r < 0 → SuspensionMath.classifyDamping r = none) ∧
    (0 ≤ r → r < 1 → SuspensionMath.classifyDamping r = some "underdamped") ∧
    (r = 1 → SuspensionMath.classifyDamping r = some "critically damped") ∧
    (1 < r → SuspensionMath.classifyDamping r = some "overdamped") ∧
    SuspensionMath.classifyDamping 1 = some "critically damped" ∧
    SuspensionMath.classifyDamping 0.999 = some "underdamped" ∧
    SuspensionMath.classifyDamping 1.001 = some "overdamped" := by
  have hone : SuspensionMath.classifyDamping 1 = some "critically damped" := by
    unfold SuspensionMath.classifyDamping
    rw [if_neg (by norm_num), if_neg (by norm_num), if_pos rfl]
  intro r
  refine ⟨fun h => ?_, fun h0 h1 => ?_, fun h => ?_, fun h => ?_, hone, ?_, ?_⟩
  · unfold SuspensionMath.classifyDamping
    rw [if_pos h]
  · unfold SuspensionMath.classifyDamping
    rw [if_neg (by linarith), if_pos h1]
  · rw [h]
    exact hone
  · unfold SuspensionMath.classifyDamping
    rw [if_neg (by linarith), if_neg (by linarith), if_neg (by linarith)]
  · unfold SuspensionMath.classifyDamping
    rw [if_neg (by norm_num), if_pos (by norm_num)]
  · unfold SuspensionMath.classifyDamping
    rw [if_neg (by norm_num), if_neg (by norm_num), if_neg (by norm_num)]

/-- C4: each physics function of `suspension-math.js` throws (returns no
number) whenever a parameter that must be positive (frequency, spring rate,
mass) is non-positive — and the damping functions also for a negative
ratio/coefficient; in particular `calculateCriticalDamping` with negative
mass always fails. -/
theorem physics_guard_nonpositive : ∀ f k m c r : ℝ,
    (f ≤ 0 ∨ m ≤ 0 → SuspensionMath.calculateSpringRate f m = none) ∧
    (k ≤ 0 ∨ m ≤ 0 → SuspensionMath.calculateNaturalFrequency k m = none) ∧
    (r < 0 ∨ k ≤ 0 ∨ m ≤ 0 →
      SuspensionMath.calculateDampingCoefficient r k m = none) ∧
    (c < 0 ∨ k ≤ 0 ∨ m ≤ 0 → SuspensionMath.calculateDampingRatio c k m = none) ∧
    (k ≤ 0 ∨ m ≤ 0 → SuspensionMath.calculateCriticalDamping k m = none) ∧
    (f ≤ 0 → SuspensionMath.calculatePeriod f = none) ∧
    (m < 0 → SuspensionMath.calculateCriticalDamping k m = none) := by
  intro f k m c r
  refine ⟨fun h => ?_, fun h => ?_, fun h => ?_, fun h => ?_, fun h => ?_,
    fun h => ?_, fun h => ?_⟩
  · exact if_pos h
  · exact if_pos h
  · exact if_pos h
  · exact if_pos h
  · exact if_pos h
  · exact if_pos h
  · exact if_pos (Or.inr h.le)

/-- C7: for positive frequency and mass, `calculateSpringRate` returns exactly
`(2π·f)²·m`, and feeding that spring rate back into
`calculateNaturalFrequency` with the same mass recovers the frequency exactly;
the value at f = 2 Hz, m = 80 kg is within 1 of the spec's ≈ 12632.5 N/m. -/
theorem springRate_frequency_roundtrip (f m : ℝ) (hf : 0 < f) (hm : 0 < m) :
    SuspensionMath.calculateSpringRate f m = some ((2 * Real.pi * f) ^ 2 * m) ∧
    SuspensionMath.calculateNaturalFrequency ((2 * Real.pi * f) ^ 2 * m) m
      = some f ∧
    |(2 * Real.pi * 2) ^ 2 * 80 - 12632.5| < 1 := by
  have hpi := Real.pi_gt_d6
  have hpi2 := Real.pi_lt_d6
  have h2pi : (0 : ℝ) < 2 * Real.pi * f := by positivity
  refine ⟨?_, ?_, ?_⟩
  · unfold SuspensionMath.calculateSpringRate
    rw [if_neg (by push_neg; exact ⟨hf, hm⟩)]
  · unfold SuspensionMath.calculateNaturalFrequency
    rw [if_neg (by push_neg; exact ⟨by positivity, hm⟩)]
    have h1 : (2 * Real.pi * f) ^ 2 * m / m = (2 * Real.pi * f) ^ 2 :=
      mul_div_cancel_right₀ _ (ne_of_gt hm)
    rw [h1, Real.sqrt_sq h2pi.le]
    congr 1
    exact mul_div_cancel_left₀ f (by positivity)
  · rw [abs_lt]
    constructor <;>
      nlinarith [hpi, hpi2, Real.pi_pos, sq_nonneg (Real.pi - 3.141592),
        sq_nonneg (Real.pi - 3.141593)]

/-- Closed instance of C7 at frequency 2 Hz, mass 80 kg. -/
theorem springRate_frequency_roundtrip_witness :
    SuspensionMath.calculateSpringRate 2 80
      = some ((2 * Real.pi * 2) ^ 2 * 80) ∧
    SuspensionMath.calculateNaturalFrequency ((2 * Real.pi * 2) ^ 2 * 80) 80
      = some 2 ∧
    |(2 * Real.pi * 2) ^ 2 * 80 - 12632.5| < 1 :=
  springRate_frequency_roundtrip 2 80 two_pos (by norm_num)

/-- C5 counterexample: `lbsToKg` of `utils.js` returns a numeric result for
the negative input −1 (its guard `isValidNumber` accepts negatives), where
the claim says it must fail. -/
theorem lbsToKg_negative_returns_value :
    Utils.lbsToKg (Utils.JSNum.num (-1)) = some (-0.453592) ∧
    Utils.lbsToKg (Utils.JSNum.num (-1)) ≠ none := by
  have h : Utils.lbsToKg (Utils.JSNum.num (-1)) = some ((-1) * 0.453592) := rfl
  constructor
  · rw [h]
    norm_num
  · rw [h]
    simp

/-- C5 (amended): each conversion of `utils.js` fails exactly when its input
is not a finite number (`NaN` or an infinity), and returns a numeric result
for every finite input — negative ones included. -/
theorem conversions_fail_iff_not_finite : ∀ v : Utils.JSNum,
    (Utils.lbsToKg v = none ↔ Utils.isValidNumber v = false) ∧
    (Utils.kgToLbs v = none ↔ Utils.isValidNumber v = false) ∧
    (Utils.mmToInches v = none ↔ Utils.isValidNumber v = false) ∧
    (Utils.inchesToMm v = none ↔ Utils.isValidNumber v = false) := by
  intro v
  cases v <;>
    simp [Utils.lbsToKg, Utils.kgToLbs, Utils.mmToInches, Utils.inchesToMm,
      Utils.isValidNumber]

/-- C6: for every positive x the `utils.js` round trips
`kgToLbs (lbsToKg x)` and `inchesToMm (mmToInches x)` succeed and return x
within 10⁻⁶ relative error (in the exact-arithmetic model they return x
exactly, the factors being reciprocal). -/
theorem conversion_roundtrip (x : ℚ) (hx : 0 < x) :
    (∃ y z, Utils.lbsToKg (Utils.JSNum.num x) = some y ∧
      Utils.kgToLbs (Utils.JSNum.num y) = some z ∧ |z - x| ≤ x * (1/1000000)) ∧
    (∃ y z, Utils.mmToInches (Utils.JSNum.num x) = some y ∧
      Utils.inchesToMm (Utils.JSNum.num y) = some z ∧
      |z - x| ≤ x * (1/1000000)) := by
  constructor
  · refine ⟨x * 0.453592, x, rfl, ?_, ?_⟩
    · have h : Utils.kgToLbs (Utils.JSNum.num (x * 0.453592))
          = some (x * 0.453592 / 0.453592) := rfl
      rw [h, mul_div_cancel_right₀ x (show (0.453592 : ℚ) ≠ 0 by norm_num)]
    · rw [sub_self, abs_zero]
      positivity
  · refine ⟨x / 25.4, x, rfl, ?_, ?_⟩
    · have h : Utils.inchesToMm (Utils.JSNum.num (x / 25.4))
          = some (x / 25.4 * 25.4) := rfl
      rw [h, div_mul_cancel₀ x (show (25.4 : ℚ) ≠ 0 by norm_num)]
    · rw [sub_self, abs_zero]
      positivity

/-- Closed instance of C6 at x = 7. -/
theorem conversion_roundtrip_witness :
    (∃ y z, Utils.lbsToKg (Utils.JSNum.num 7) = some y ∧
      Utils.kgToLbs (Utils.JSNum.num y) = some z ∧
      |z - 7| ≤ 7 * (1/1000000)) ∧
    (∃ y z, Utils.mmToInches (Utils.JSNum.num 7) = some y ∧
      Utils.inchesToMm (Utils.JSNum.num y) = some z ∧
      |z - 7| ≤ 7 * (1/1000000)) :=
  conversion_roundtrip 7 (by norm_num)

/-- C10 counterexample: at 1 kg, `utils.js` `kgToLbs` gives 1/0.453592 =
1000000/453592 lbs while the second module gives 2.20462 lbs; the gap is
about 2.005·10⁻⁶ relative — more than the claimed 10⁻⁶ — whichever side the
error is taken relative to. -/
theorem conversion_disagreement :
    Utils.kgToLbs (Utils.JSNum.num 1) = some (1 / 0.453592) ∧
    ScriptUtils.kgToLbs 1 = 2.20462 ∧
    ¬ (|1 / (0.453592 : ℚ) - 2.20462| ≤ 1/1000000 * 2.20462) ∧
    ¬ (|1 / (0.453592 : ℚ) - 2.20462| ≤ 1/1000000 * (1 / 0.453592)) := by
  refine ⟨rfl, ?_, ?_, ?_⟩
  · show (1 : ℚ) * 2.20462 = 2.20462
    norm_num
  · rw [abs_of_nonneg (by norm_num)]
    norm_num
  · rw [abs_of_nonneg (by norm_num)]
    norm_num

/-- C10 (amended): the two pound/kilogram conversion implementations agree
within 2.1·10⁻⁶ relative error on every positive input (the exact gap is
|1 − 0.453592·2.20462| ≈ 2.005·10⁻⁶, just above the claimed 10⁻⁶), and the
weight normalization in `calculateSetup` is exactly the second module's
`kgToLbs` (× 2.20462), so it agrees with `utils.js` `kgToLbs` within the same
tolerance. -/
theorem conversions_agree_within_tolerance (x : ℚ) (hx : 0 < x) :
    (∃ y, Utils.lbsToKg (Utils.JSNum.num x) = some y ∧
      |y - ScriptUtils.lbsToKg x| ≤ 21/10000000 * ScriptUtils.lbsToKg x) ∧
    (∃ y, Utils.kgToLbs (Utils.JSNum.num x) = some y ∧
      |y - ScriptUtils.kgToLbs x| ≤ 21/10000000 * ScriptUtils.kgToLbs x) ∧
    (∀ (ts tf : ℚ) (s : String),
      App.calculateSetup ⟨x, "kg", ts, tf, s⟩
        = App.calculateSetup ⟨ScriptUtils.kgToLbs x, "lbs", ts, tf, s⟩) := by
  refine ⟨?_, ?_, ?_⟩
  · refine ⟨x * 0.453592, rfl, ?_⟩
    have hb : ScriptUtils.lbsToKg x = x * (50000/110231) := by
      unfold ScriptUtils.lbsToKg
      rw [div_eq_mul_inv]
      norm_num
    have hc : |(0.453592 : ℚ) - 50000/110231| ≤ 21/10000000 * (50000/110231) := by
      rw [abs_of_nonpos (by norm_num)]
      norm_num
    rw [hb]
    exact rel_close_scale x 0.453592 (50000/110231) (21/10000000) hx.le hc
  · refine ⟨x / 0.453592, rfl, ?_⟩
    have ha : x / (0.453592 : ℚ) = x * (125000/56699) := by
      rw [div_eq_mul_inv]
      norm_num
    have hb : ScriptUtils.kgToLbs x = x * (110231/50000) := by
      unfold ScriptUtils.kgToLbs
      norm_num
    have hc : |(125000/56699 : ℚ) - 110231/50000|
        ≤ 21/10000000 * (110231/50000) := by
      rw [abs_of_nonneg (by norm_num)]
      norm_num
    rw [ha, hb]
    exact rel_close_scale x (125000/56699) (110231/50000) (21/10000000) hx.le hc
  · intro ts tf s
    simp [App.calculateSetup, ScriptUtils.kgToLbs]

/-- Closed instance of the amended C10 at x = 1. -/
theorem conversions_agree_within_tolerance_witness :
    (∃ y, Utils.lbsToKg (Utils.JSNum.num 1) = some y ∧
      |y - ScriptUtils.lbsToKg 1| ≤ 21/10000000 * ScriptUtils.lbsToKg 1) ∧
    (∃ y, Utils.kgToLbs (Utils.JSNum.num 1) = some y ∧
      |y - ScriptUtils.kgToLbs 1| ≤ 21/10000000 * ScriptUtils.kgToLbs 1) ∧
    (∀ (ts tf : ℚ) (s : String),
      App.calculateSetup ⟨1, "kg", ts, tf, s⟩
        = App.calculateSetup ⟨ScriptUtils.kgToLbs 1, "lbs", ts, tf, s⟩) :=
  conversions_agree_within_tolerance 1 (by norm_num)

end SuspensionCalc
